import Mathlib

/-
Shallow embedding of src/aavehealthfactor.py (AAVE health-factor
monitoring bot).  The core consists of:
  - a subscription registry: the global dict `user_data`, mapping a chat
    id (string) to a record with keys threshold (Python float) and
    address (string);
  - a persistence layer: `load_user_data` / `save_user_data` over the
    JSON file named by USER_DATA_FILE;
  - the metric query `check_health_factor`;
  - the command handlers `monitor`, `check`, `stop`;
  - the sweep `periodic_check` / `check_and_notify`.

Modelling decisions:
  - Python floats are modelled as rationals.  The code only ever parses,
    stores, serializes and compares them, so the ordering is all that
    matters to the claims.
  - Python dicts are insertion-ordered association lists; updating an
    existing key keeps its position, inserting a fresh key appends.
  - The json module is modelled at the value level: a JSON text is
    identified with the value it parses to (inductive JVal), plus the
    degenerate file contents the code distinguishes (missing file, blank
    content, unparsable content).  json.dump writes a text that
    json.loads parses back to the same value, so this identification is
    exact for the round-trip behaviour of the repository code.
  - The RPC client and the Telegram transport are external collaborators
    and enter as function parameters: the RPC is a function from an
    address to an optional raw healthFactor word (None models the call
    raising, which check_health_factor catches); the notifier is a
    predicate saying whether a given send succeeds (False models
    bot.send_message raising, which nothing in the sweep catches).
-/

namespace AaveHealthFactor

/-- One stored subscription: the value of user_data at one chat id,
a Python dict with keys threshold and address. -/
structure Subscription where
  threshold : ℚ
  address : String
deriving DecidableEq, Repr

/-- The in-memory registry user_data: an insertion-ordered mapping from
chat id (string) to subscription, as a Python dict. -/
abbrev Mapping := List (String × Subscription)

/-- Python dict lookup: user_data.get(chat_id) / chat_id in user_data. -/
def Mapping.lookup : Mapping → String → Option Subscription
  | [], _ => none
  | (k, v) :: rest, c => if k = c then some v else Mapping.lookup rest c

/-- Python dict write user_data[chat_id] = sub: replaces in place when the
key exists (keeping its position), appends otherwise. -/
def Mapping.setKey : Mapping → String → Subscription → Mapping
  | [], c, s => [(c, s)]
  | (k, v) :: rest, c, s =>
      if k = c then (c, s) :: rest else (k, v) :: Mapping.setKey rest c s

/-- Python del user_data[chat_id]: removes the entry with the given key. -/
def Mapping.eraseKey : Mapping → String → Mapping
  | [], _ => []
  | (k, v) :: rest, c =>
      if k = c then rest else (k, v) :: Mapping.eraseKey rest c

/-- The keys of user_data in iteration order (for chat_id in user_data). -/
def Mapping.keys (m : Mapping) : List String := m.map Prod.fst

/-- A JSON value, as produced by json.loads / consumed by json.dump.
Numbers are modelled as rationals, objects as insertion-ordered key-value
lists (Python dicts). -/
inductive JVal where
  | null
  | bool (b : Bool)
  | num (q : ℚ)
  | str (s : String)
  | arr (l : List JVal)
  | obj (l : List (String × JVal))

/-- JSON encoding of one subscription record, as json.dump writes it:
an object with keys threshold and address, in insertion order. -/
def subToJVal (s : Subscription) : JVal :=
  .obj [("threshold", .num s.threshold), ("address", .str s.address)]

/-- JSON encoding of the whole user_data mapping, as json.dump writes it. -/
def toJVal (m : Mapping) : JVal :=
  .obj (m.map (fun kv => (kv.1, subToJVal kv.2)))

/-- Decoding of one subscription record from its JSON value. -/
def subOfJVal : JVal → Option Subscription
  | .obj [("threshold", .num t), ("address", .str a)] => some ⟨t, a⟩
  | _ => none

/-- Decoding of a list of JSON object entries back into a mapping. -/
def decodeEntries : List (String × JVal) → Option Mapping
  | [] => some []
  | (k, v) :: rest =>
      match subOfJVal v, decodeEntries rest with
      | some s, some m => some ((k, s) :: m)
      | _, _ => none

/-- Decoding of a whole JSON value back into a subscription mapping. -/
def ofJVal : JVal → Option Mapping
  | .obj l => decodeEntries l
  | _ => none

/-- Durable state of the file named by USER_DATA_FILE, as the code
distinguishes it: missing (open raises FileNotFoundError), blank content
(content.strip() falsy), unparsable content (json.loads raises
JSONDecodeError), or a well-formed JSON text identified with the value it
parses to. -/
inductive FileState where
  | missing
  | emptyStr
  | malformed
  | stored (v : JVal)

/-- Embedding of load_user_data (src lines 87-96): returns the parsed
content; a missing file, blank content or a JSON parse failure all yield
the empty dict. -/
def load_user_data : FileState → JVal
  | .missing => .obj []
  | .emptyStr => .obj []
  | .malformed => .obj []
  | .stored v => v

/-- Embedding of save_user_data (src lines 99-101): the final durable
state after open(USER_DATA_FILE, w-mode) followed by json.dump(data, f)
is the dumped value; the previous content is discarded. -/
def save_user_data (v : JVal) (_prev : FileState) : FileState :=
  .stored v

/-- The sequence of durable states the file passes through during one
save_user_data call: the previous state; then the empty file, because
opening with mode w truncates in place before anything is written; then
the fully written new state.  (json.dump may additionally leave partial,
malformed prefixes between the last two; the truncated state alone is
enough for the atomicity analysis.) -/
def save_user_data_durable_trace (v : JVal) (prev : FileState) :
    List FileState :=
  [prev, .emptyStr, .stored v]

/-- Embedding of check_health_factor (src lines 107-114): queries the RPC
for getUserAccountData(address)[5] and divides by 1e18; any exception from
the call is caught and yields None, here the RPC parameter returns the raw
healthFactor word or none for a raised exception. -/
def check_health_factor (rpc : String → Option ℕ) (address : String) :
    Option ℚ :=
  (rpc address).map (fun n => (n : ℚ) / 10 ^ 18)

/-- One message the sweep can attempt to send: the below-threshold alert
(src lines 221-225) carrying the health factor and threshold it
interpolates, or the source-unavailable message (src lines 227-230). -/
inductive Event where
  | alert (chat : String) (hf threshold : ℚ) (address : String)
  | unavailable (chat : String) (address : String)
deriving DecidableEq, Repr

/-- Result of one check_and_notify call: the registry afterwards, the
messages the handler attempted to send in order, and whether a send raised
out of the handler (bot.send_message failures are not caught anywhere in
the sweep). -/
structure CheckResult where
  state : Mapping
  attempted : List Event
  raised : Bool
deriving DecidableEq, Repr

/-- Embedding of check_and_notify (src lines 211-230).  Absent chat id:
return immediately.  Otherwise read the stored address and threshold,
query check_health_factor; a numeric reading strictly below the threshold
sends the alert, a reading at or above the threshold sends nothing, a
failed reading sends the unavailable message.  notifyOk tells whether a
given send succeeds; a failed send raises. -/
def check_and_notify (rpc : String → Option ℕ) (notifyOk : Event → Bool)
    (st : Mapping) (chat : String) : CheckResult :=
  match st.lookup chat with
  | none => ⟨st, [], false⟩
  | some sub =>
      match check_health_factor rpc sub.address with
      | some hf =>
          if hf < sub.threshold then
            let e := Event.alert chat hf sub.threshold sub.address
            ⟨st, [e], !notifyOk e⟩
          else
            ⟨st, [], false⟩
      | none =>
          let e := Event.unavailable chat sub.address
          ⟨st, [e], !notifyOk e⟩

/-- Result of one sweep: the registry afterwards, all messages attempted
in order, the chat ids whose evaluation ran, and whether an uncaught send
exception aborted the loop. -/
structure SweepResult where
  state : Mapping
  attempted : List Event
  evaluated : List String
  raised : Bool
deriving DecidableEq, Repr

/-- The sweep loop body: process each chat id in turn; an exception
propagating out of check_and_notify aborts the remaining iterations. -/
def sweepGo (rpc : String → Option ℕ) (notifyOk : Event → Bool) :
    Mapping → List String → SweepResult
  | st, [] => ⟨st, [], [], false⟩
  | st, c :: rest =>
      let r := check_and_notify rpc notifyOk st c
      if r.raised then
        ⟨r.state, r.attempted, [c], true⟩
      else
        let r2 := sweepGo rpc notifyOk r.state rest
        ⟨r2.state, r.attempted ++ r2.attempted, c :: r2.evaluated, r2.raised⟩

/-- Embedding of periodic_check (src lines 233-235): for chat_id in
user_data: await check_and_notify(context, chat_id). -/
def periodic_check (rpc : String → Option ℕ) (notifyOk : Event → Bool)
    (st : Mapping) : SweepResult :=
  sweepGo rpc notifyOk st st.keys

/-- A concrete metric source for counterexamples and witnesses: every
address reads the raw word 1e18, i.e. health factor exactly 1. -/
def rpcHFOne : String → Option ℕ := fun _ => some (10 ^ 18)

/-- A concrete notifier for counterexamples: every send fails (the
Telegram call raises). -/
def notifyFailAll : Event → Bool := fun _ => false

/-- Value of a decimal digit character. -/
def digitVal (c : Char) : ℕ := c.toNat - 48

/-- Whether every character of the list is a decimal digit. -/
def allDigits (l : List Char) : Bool := l.all Char.isDigit

/-- The natural number denoted by a list of decimal digits. -/
def natOfDigits (l : List Char) : ℕ :=
  l.foldl (fun acc c => acc * 10 + digitVal c) 0

/-- Surrounding whitespace stripping, as float() applies to its
argument. -/
def stripWs (l : List Char) : List Char :=
  ((l.dropWhile Char.isWhitespace).reverse.dropWhile Char.isWhitespace).reverse

/-- The Python builtin float() applied to a command argument, on the
fragment the registry's contract is about: surrounding whitespace is
stripped, then an optional sign followed by a decimal literal with an
optional fractional part (at least one digit overall) parses to its exact
value, the fraction written as an explicit quotient; anything else here
is none, modelling the ValueError branch.  float() additionally accepts
exponents, underscores, inf and nan; on every string this parser accepts
it agrees with float()'s value exactly. -/
def pyFloat (s : String) : Option ℚ :=
  let cs := stripWs s.toList
  let signed : Bool × List Char :=
    match cs with
    | '-' :: rest => (true, rest)
    | '+' :: rest => (false, rest)
    | _ => (false, cs)
  let ip := signed.2.takeWhile (fun c => c ≠ '.')
  let rest := signed.2.dropWhile (fun c => c ≠ '.')
  let mag : Option ℚ :=
    match rest with
    | [] =>
        if ip ≠ [] && allDigits ip then some (mkRat (natOfDigits ip) 1)
        else none
    | '.' :: fp =>
        if (ip ≠ [] || fp ≠ []) && allDigits ip && allDigits fp then
          some (mkRat (natOfDigits ip * 10 ^ fp.length + natOfDigits fp)
            (10 ^ fp.length))
        else none
    | _ => none
  mag.map (fun q => if signed.1 then -q else q)

/-- The reply a /monitor command produces: the usage message (wrong
argument count), the invalid-threshold message (float() raised
ValueError), the invalid-address message (w3.is_address false), or the
started/updated confirmation interpolating the address and threshold. -/
inductive MonitorReply where
  | usage
  | badThreshold
  | badAddress
  | started (address : String) (threshold : ℚ)
  | updated (address : String) (threshold : ℚ)
deriving DecidableEq, Repr

/-- Result of the registry part of a /monitor command: the registry and
durable file afterwards, plus the reply sent. -/
structure MonitorResult where
  state : Mapping
  file : FileState
  reply : MonitorReply

/-- Embedding of the monitor handler, src lines 133-158 (everything
before the confirmation reply and the immediate check): reject unless
exactly two arguments; parse the threshold with float(), rejecting on
ValueError; reject an address w3.is_address dislikes (is_address is the
external validator parameter); then write the subscription into
user_data - updating both fields in place when the chat id exists,
creating the entry otherwise - and save_user_data the whole mapping. -/
def monitor (is_address : String → Bool) (st : Mapping) (file : FileState)
    (chat : String) (args : List String) : MonitorResult :=
  match args with
  | [a0, a1] =>
      match pyFloat a0 with
      | none => ⟨st, file, .badThreshold⟩
      | some t =>
          if is_address a1 then
            let existed := (st.lookup chat).isSome
            let st' := st.setKey chat ⟨t, a1⟩
            ⟨st', save_user_data (toJVal st') file,
              if existed then .updated a1 t else .started a1 t⟩
          else ⟨st, file, .badAddress⟩
  | _ => ⟨st, file, .usage⟩

/-- Embedding of the data the check handler (src lines 163-183) reads
back and interpolates into its reply: the stored threshold and address
for the chat id, or none with the not-monitoring reply. -/
def check (st : Mapping) (chat : String) : Option (ℚ × String) :=
  match st.lookup chat with
  | some sub => some (sub.threshold, sub.address)
  | none => none

/-- The reply a /stop command produces. -/
inductive StopReply where
  | stopped
  | notMonitoring
deriving DecidableEq, Repr

/-- Embedding of the stop handler (src lines 186-193): when the chat id
is subscribed, delete its entry, save_user_data the mapping and confirm;
otherwise reply that nothing was being monitored, touching neither the
registry nor the file. -/
def stop (st : Mapping) (file : FileState) (chat : String) :
    Mapping × FileState × StopReply :=
  if (st.lookup chat).isSome then
    let st' := st.eraseKey chat
    (st', save_user_data (toJVal st') file, .stopped)
  else
    (st, file, .notMonitoring)

/-- Result of the full monitor handler including src line 160: the
immediate check_and_notify run on the updated registry, present exactly
when the command reached the success path. -/
structure MonitorFullResult where
  state : Mapping
  file : FileState
  reply : MonitorReply
  immediate : Option CheckResult

/-- Embedding of the whole monitor handler, src lines 133-160: the
registry mutation followed, on the success path only, by an immediate
check_and_notify for this chat id on the updated registry. -/
def monitor_handler (is_address : String → Bool)
    (rpc : String → Option ℕ) (notifyOk : Event → Bool)
    (st : Mapping) (file : FileState) (chat : String) (args : List String) :
    MonitorFullResult :=
  let r := monitor is_address st file chat args
  match r.reply with
  | .started _ _ =>
      ⟨r.state, r.file, r.reply, some (check_and_notify rpc notifyOk r.state chat)⟩
  | .updated _ _ =>
      ⟨r.state, r.file, r.reply, some (check_and_notify rpc notifyOk r.state chat)⟩
  | _ => ⟨r.state, r.file, r.reply, none⟩

/-- Registry states reachable by the command interface from a fresh
start (user_data = load_user_data() on a machine with no prior durable
state), for a fixed external address validator: any sequence of /monitor
and /stop commands. -/
inductive Reachable (is_address : String → Bool) :
    Mapping → FileState → Prop
  | init : Reachable is_address [] .missing
  | monitorStep (st : Mapping) (file : FileState) (chat : String)
      (args : List String) :
      Reachable is_address st file →
      Reachable is_address (monitor is_address st file chat args).state
        (monitor is_address st file chat args).file
  | stopStep (st : Mapping) (file : FileState) (chat : String) :
      Reachable is_address st file →
      Reachable is_address (stop st file chat).1 (stop st file chat).2.1

/- Helper lemmas -/

theorem Mapping.lookup_setKey_self (m : Mapping) (c : String)
    (s : Subscription) : (m.setKey c s).lookup c = some s := by
  induction m with
  | nil => simp [Mapping.setKey, Mapping.lookup]
  | cons kv rest ih =>
      obtain ⟨k, v⟩ := kv
      by_cases h : k = c
      · simp [Mapping.setKey, h, Mapping.lookup]
      · simp [Mapping.setKey, h, Mapping.lookup, ih]

theorem check_and_notify_state (rpc : String → Option ℕ)
    (notifyOk : Event → Bool) (st : Mapping) (chat : String) :
    (check_and_notify rpc notifyOk st chat).state = st := by
  unfold check_and_notify
  split
  · rfl
  · split
    · split <;> rfl
    · rfl

theorem check_and_notify_ok_not_raised (rpc : String → Option ℕ)
    (st : Mapping) (chat : String) :
    (check_and_notify rpc (fun _ => true) st chat).raised = false := by
  unfold check_and_notify
  split
  · rfl
  · split
    · split <;> rfl
    · rfl

theorem sweepGo_state (rpc : String → Option ℕ) (notifyOk : Event → Bool)
    (cs : List String) :
    ∀ st : Mapping, (sweepGo rpc notifyOk st cs).state = st := by
  induction cs with
  | nil => intro st; rfl
  | cons c rest ih =>
      intro st
      simp only [sweepGo]
      by_cases h : (check_and_notify rpc notifyOk st c).raised
      · simp [h, check_and_notify_state]
      · simp [h, ih, check_and_notify_state]

theorem sweepGo_ok_evaluated (rpc : String → Option ℕ) (cs : List String) :
    ∀ st : Mapping, (sweepGo rpc (fun _ => true) st cs).evaluated = cs ∧
      (sweepGo rpc (fun _ => true) st cs).raised = false := by
  induction cs with
  | nil => intro st; exact ⟨rfl, rfl⟩
  | cons c rest ih =>
      intro st
      simp only [sweepGo]
      simp [check_and_notify_ok_not_raised, ih]

/- Claim theorems -/

/-- C1: for every stored subscription and every evaluation, a numeric
reading strictly below the threshold makes check_and_notify send exactly
the below-threshold alert carrying that value; a numeric reading at or
above the threshold makes it send nothing; an unavailable reading makes
it send exactly the source-unavailable message, with no suppression
state of any kind. -/
theorem c1_alert_evaluator (rpc : String → Option ℕ)
    (notifyOk : Event → Bool) (st : Mapping) (chat : String)
    (sub : Subscription) (h : st.lookup chat = some sub) :
    (∀ hf : ℚ, check_health_factor rpc sub.address = some hf →
      (hf < sub.threshold →
        (check_and_notify rpc notifyOk st chat).attempted
          = [Event.alert chat hf sub.threshold sub.address]) ∧
      (sub.threshold ≤ hf →
        (check_and_notify rpc notifyOk st chat).attempted = [])) ∧
    (check_health_factor rpc sub.address = none →
      (check_and_notify rpc notifyOk st chat).attempted
        = [Event.unavailable chat sub.address]) := by
  constructor
  · intro hf hhf
    constructor
    · intro hlt
      simp [check_and_notify, h, hhf, hlt]
    · intro hge
      simp [check_and_notify, h, hhf, not_lt.mpr hge]
  · intro hnone
    simp [check_and_notify, h, hnone]

/-- Witness for C1 at a concrete input: one subscriber with threshold 2
and a raw reading of 1e18 (health factor 1) receives exactly the alert
carrying the value 1. -/
theorem c1_witness :
    (check_and_notify (fun _ => some (10 ^ 18)) (fun _ => true)
        [("1", ⟨2, "a"⟩)] "1").attempted = [Event.alert "1" 1 2 "a"] := by
  have hcf : check_health_factor (fun _ => some (10 ^ 18))
      (Subscription.mk 2 "a").address = some 1 := by
    norm_num [check_health_factor]
  exact ((c1_alert_evaluator (fun _ => some (10 ^ 18)) (fun _ => true)
      [("1", ⟨2, "a"⟩)] "1" ⟨2, "a"⟩ rfl).1 1 hcf).1 (by norm_num)

/-- C5: load_user_data yields the empty mapping, rather than failing,
when no durable file exists, when the file is blank, and when its content
is unparsable. -/
theorem c5_load_resilient :
    load_user_data .missing = .obj [] ∧
    load_user_data .emptyStr = .obj [] ∧
    load_user_data .malformed = .obj [] :=
  ⟨rfl, rfl, rfl⟩

theorem subOfJVal_subToJVal (s : Subscription) :
    subOfJVal (subToJVal s) = some s := rfl

theorem decodeEntries_map (m : Mapping) :
    decodeEntries (m.map (fun kv => (kv.1, subToJVal kv.2))) = some m := by
  induction m with
  | nil => rfl
  | cons kv rest ih => simp [decodeEntries, subOfJVal_subToJVal, ih]

theorem ofJVal_toJVal (m : Mapping) : ofJVal (toJVal m) = some m :=
  decodeEntries_map m

/-- Applying save_user_data to whatever load_user_data read back, the
composite the idempotence claim is about. -/
def saveAfterLoad (fs : FileState) : FileState :=
  save_user_data (load_user_data fs) fs

/-- C6: the subscription state round-trips losslessly: for every mapping,
saving it and loading the result decodes to exactly the same mapping, and
saving what was loaded is idempotent on the durable state. -/
theorem c6_roundtrip :
    (∀ (m : Mapping) (fs : FileState),
      ofJVal (load_user_data (save_user_data (toJVal m) fs)) = some m) ∧
    (∀ fs : FileState, saveAfterLoad (saveAfterLoad fs) = saveAfterLoad fs) := by
  constructor
  · intro m fs
    exact ofJVal_toJVal m
  · intro fs
    rfl

/-- C9: a sweep never mutates the registry: for every registry state,
every pattern of metric readings and every pattern of notification
outcomes, the mapping after periodic_check equals the mapping before. -/
theorem c9_sweep_no_mutation (rpc : String → Option ℕ)
    (notifyOk : Event → Bool) (st : Mapping) :
    (periodic_check rpc notifyOk st).state = st :=
  sweepGo_state rpc notifyOk st.keys st

/-- C2 counterexample: the registry state holding threshold -1 for chat
id 1 is reachable from a fresh start by the single command
/monitor -1 0xabc (with the external address validator accepting), and
that stored threshold is not positive: the command path performs no
positivity or finiteness check after float() parsing. -/
theorem c2_counterexample :
    (∃ fs : FileState,
      Reachable (fun _ => true) [("1", ⟨-1, "0xabc"⟩)] fs) ∧
    Mapping.lookup [("1", ⟨-1, "0xabc"⟩)] "1" = some ⟨-1, "0xabc"⟩ ∧
    ¬ (0 < (Subscription.mk (-1) "0xabc").threshold) := by
  refine ⟨?_, rfl, by norm_num⟩
  have h0 : Reachable (fun _ => true) [] .missing := Reachable.init
  have h1 := Reachable.monitorStep [] FileState.missing "1"
    ["-1", "0xabc"] h0
  have hstate : (monitor (fun _ => true) [] FileState.missing "1"
      ["-1", "0xabc"]).state = [("1", ⟨-1, "0xabc"⟩)] := by decide
  exact ⟨_, hstate ▸ h1⟩

/-- C2 amended: the monitor command path validates only that the
threshold string parses as a number; every parsed value, positive or not,
is stored unchanged in the registry. -/
theorem c2_amended_no_positivity_check (is_address : String → Bool)
    (st : Mapping) (file : FileState) (chat : String) (s0 a : String)
    (t : ℚ) (hp : pyFloat s0 = some t) (ha : is_address a = true) :
    ((monitor is_address st file chat [s0, a]).state).lookup chat
      = some ⟨t, a⟩ := by
  simp [monitor, hp, ha, Mapping.lookup_setKey_self]

/-- Witness for the amended C2 at a concrete input: the non-positive
threshold -1 parses and is stored. -/
theorem c2_amended_witness :
    pyFloat "-1" = some (-1) ∧
    ((monitor (fun _ => true) [] .missing "1" ["-1", "0xabc"]).state).lookup
      "1" = some ⟨-1, "0xabc"⟩ :=
  ⟨by decide, c2_amended_no_positivity_check (fun _ => true) [] .missing "1"
    "-1" "0xabc" (-1) (by decide) rfl⟩

/-- C3 counterexample: with two subscribers both due an alert and a
notifier whose send fails, the sweep evaluates only the first: the
exception from bot.send_message propagates out of check_and_notify and
aborts periodic_check before the second subscriber is evaluated. -/
theorem c3_counterexample :
    "2" ∈ (Mapping.keys [("1", ⟨2, "a"⟩), ("2", ⟨2, "b"⟩)]) ∧
    "2" ∉ (periodic_check rpcHFOne notifyFailAll
      [("1", ⟨2, "a"⟩), ("2", ⟨2, "b"⟩)]).evaluated ∧
    (periodic_check rpcHFOne notifyFailAll
      [("1", ⟨2, "a"⟩), ("2", ⟨2, "b"⟩)]).raised = true := by
  have hcf : check_health_factor rpcHFOne
      (Subscription.mk 2 "a").address = some 1 := by
    norm_num [check_health_factor, rpcHFOne]
  have hlk : Mapping.lookup [("1", ⟨2, "a"⟩), ("2", ⟨2, "b"⟩)] "1"
      = some ⟨2, "a"⟩ := rfl
  have hcn : check_and_notify rpcHFOne notifyFailAll
      [("1", ⟨2, "a"⟩), ("2", ⟨2, "b"⟩)] "1"
      = ⟨[("1", ⟨2, "a"⟩), ("2", ⟨2, "b"⟩)],
          [Event.alert "1" 1 2 "a"], true⟩ := by
    simp only [check_and_notify, hlk, hcf, notifyFailAll]
    norm_num
  refine ⟨by simp [Mapping.keys], ?_, ?_⟩ <;>
    simp [periodic_check, Mapping.keys, sweepGo, hcn]

/-- C3 amended: a MetricSource failure for one subscriber never aborts
the sweep - with every notification delivered, every subscriber is
evaluated whatever the pattern of per-address source failures - but a
Notifier failure is uncaught and aborts evaluation of the remaining
subscribers. -/
theorem c3_amended_source_failure_isolated (rpc : String → Option ℕ)
    (st : Mapping) :
    (periodic_check rpc (fun _ => true) st).evaluated = st.keys ∧
    (periodic_check rpc (fun _ => true) st).raised = false :=
  sweepGo_ok_evaluated rpc st.keys st

/-- C4 counterexample: save_user_data passes through the truncated-empty
durable state (open with mode w truncates in place before json.dump
writes), and that intermediate state does not preserve the previous
durable content: loading it yields the empty mapping, not the previous
nonempty one. -/
theorem c4_counterexample :
    FileState.emptyStr ∈ save_user_data_durable_trace
      (toJVal [("1", ⟨3/2, "0xabc"⟩), ("2", ⟨2, "0xdef"⟩)])
      (.stored (toJVal [("1", ⟨3/2, "0xabc"⟩)])) ∧
    load_user_data .emptyStr
      ≠ load_user_data (.stored (toJVal [("1", ⟨3/2, "0xabc"⟩)])) := by
  constructor
  · simp [save_user_data_durable_trace]
  · intro h
    simp [load_user_data, toJVal] at h

/-- C4 amended: every mutating registry operation rewrites the full
durable snapshot synchronously before returning success - monitor and
stop both leave the file holding exactly the serialized new mapping, and
the final state of the write is the complete snapshot - but the write is
an in-place truncate-then-write, not an atomic replace. -/
theorem c4_amended_synchronous_full_rewrite (is_address : String → Bool)
    (st st2 : Mapping) (file file2 : FileState) (chat chat2 : String)
    (s0 a : String) (t : ℚ) (hp : pyFloat s0 = some t)
    (ha : is_address a = true) (h2 : (st2.lookup chat2).isSome = true) :
    (monitor is_address st file chat [s0, a]).file
      = .stored (toJVal (monitor is_address st file chat [s0, a]).state) ∧
    (stop st2 file2 chat2).2.1 = .stored (toJVal (stop st2 file2 chat2).1) ∧
    (save_user_data_durable_trace (toJVal st) file).getLast?
      = some (save_user_data (toJVal st) file) := by
  refine ⟨?_, ?_, rfl⟩
  · simp [monitor, hp, ha, save_user_data]
  · simp [stop, h2, save_user_data]

/-- Witness for the amended C4 at concrete inputs: a successful monitor
and a successful stop both leave the file holding the serialized new
mapping. -/
theorem c4_amended_witness :
    (monitor (fun _ => true) [] .missing "1" ["2", "0xabc"]).file
      = .stored (toJVal (monitor (fun _ => true) [] .missing "1"
          ["2", "0xabc"]).state) ∧
    (stop [("2", ⟨1, "x"⟩)] .missing "2").2.1
      = .stored (toJVal (stop [("2", ⟨1, "x"⟩)] .missing "2").1) := by
  have h := c4_amended_synchronous_full_rewrite (fun _ => true) []
    [("2", ⟨1, "x"⟩)] FileState.missing FileState.missing "1" "2"
    "2" "0xabc" 2 (by decide) rfl rfl
  exact ⟨h.1, h.2.1⟩

/-- C7: for every valid input and prior state, a monitor upsert followed
by a check reads back exactly the threshold and address just stored,
fully replacing any previous subscription, and the reply reports an
update exactly when the subscriber already existed and a creation
otherwise. -/
theorem c7_upsert_then_get (is_address : String → Bool) (st : Mapping)
    (file : FileState) (chat : String) (s0 a : String) (t : ℚ)
    (hp : pyFloat s0 = some t) (_hpos : 0 < t) (ha : is_address a = true) :
    check (monitor is_address st file chat [s0, a]).state chat
      = some (t, a) ∧
    (monitor is_address st file chat [s0, a]).reply
      = (if (st.lookup chat).isSome then .updated a t else .started a t) := by
  constructor
  · simp [monitor, hp, ha, check, Mapping.lookup_setKey_self]
  · simp [monitor, hp, ha]

/-- Witness for C7 at a concrete input: threshold 1.5 and a validated
address stored for a fresh subscriber read back exactly, with the
created-style reply. -/
theorem c7_witness :
    pyFloat "2" = some 2 ∧ (0 : ℚ) < 2 ∧
    check (monitor (fun _ => true) [("0", ⟨9, "z"⟩)] .missing "1"
        ["2", "0xabc"]).state "1" = some (2, "0xabc") ∧
    (monitor (fun _ => true) [("0", ⟨9, "z"⟩)] .missing "1"
        ["2", "0xabc"]).reply = .started "0xabc" 2 := by
  have hp : pyFloat "2" = some 2 := by decide
  have h := c7_upsert_then_get (fun _ => true) [("0", ⟨9, "z"⟩)]
    FileState.missing "1" "2" "0xabc" 2 hp (by norm_num) rfl
  refine ⟨hp, by norm_num, h.1, ?_⟩
  rw [h.2]
  rfl

/-- C8: a stop command for a subscriber with no subscription replies that
nothing was being monitored and changes nothing: the registry and the
durable file are returned untouched, so the snapshot is persisted only
when an actual removal occurs. -/
theorem c8_remove_absent (st : Mapping) (file : FileState) (chat : String)
    (h : st.lookup chat = none) :
    stop st file chat = (st, file, .notMonitoring) := by
  simp [stop, h]

/-- Witness for C8 at a concrete input: stopping an absent subscriber on
a nonempty registry leaves state and file untouched. -/
theorem c8_witness :
    stop [("2", ⟨1, "x"⟩)] .missing "1"
      = ([("2", ⟨1, "x"⟩)], FileState.missing, .notMonitoring) :=
  c8_remove_absent [("2", ⟨1, "x"⟩)] FileState.missing "1" rfl

/-- C10: every successful monitor command immediately runs one
check_and_notify for that chat id on the updated registry, so the newly
stored subscription is evaluated before the next sweep: the attempted
messages of that immediate check are exactly what its new threshold and
address warrant under the current reading. -/
theorem c10_monitor_immediate_check (is_address : String → Bool)
    (rpc : String → Option ℕ) (notifyOk : Event → Bool) (st : Mapping)
    (file : FileState) (chat : String) (s0 a : String) (t : ℚ)
    (hp : pyFloat s0 = some t) (ha : is_address a = true) :
    ∃ cr : CheckResult,
      (monitor_handler is_address rpc notifyOk st file chat
        [s0, a]).immediate = some cr ∧
      cr.attempted = (match check_health_factor rpc a with
        | some hf => if hf < t then [Event.alert chat hf t a] else []
        | none => [Event.unavailable chat a]) := by
  have hsub : ((monitor is_address st file chat [s0, a]).state).lookup chat
      = some ⟨t, a⟩ := by
    simp [monitor, hp, ha, Mapping.lookup_setKey_self]
  have hreply : (monitor is_address st file chat [s0, a]).reply
      = (if (st.lookup chat).isSome then .updated a t else .started a t) := by
    simp [monitor, hp, ha]
  refine ⟨check_and_notify rpc notifyOk
    (monitor is_address st file chat [s0, a]).state chat, ?_, ?_⟩
  · simp only [monitor_handler]
    rw [hreply]
    by_cases hex : (st.lookup chat).isSome <;> simp [hex]
  · simp only [check_and_notify, hsub]
    cases hcf : check_health_factor rpc a with
    | none => rfl
    | some hf => by_cases hlt : hf < t <;> simp [hlt]

/-- Witness for C10 at a concrete input: monitoring with threshold 1.5
while the source reads health factor 1 sends the below-threshold alert
immediately, before any sweep. -/
theorem c10_witness :
    ∃ cr : CheckResult,
      (monitor_handler (fun _ => true) (fun _ => some (10 ^ 18))
        (fun _ => true) [] .missing "1" ["2", "0xabc"]).immediate
          = some cr ∧
      cr.attempted = [Event.alert "1" 1 2 "0xabc"] := by
  have hp : pyFloat "2" = some 2 := by decide
  obtain ⟨cr, h1, h2⟩ := c10_monitor_immediate_check (fun _ => true)
    (fun _ => some (10 ^ 18)) (fun _ => true) [] FileState.missing "1"
    "2" "0xabc" 2 hp rfl
  refine ⟨cr, h1, ?_⟩
  rw [h2]
  have hcf : check_health_factor (fun _ => some (10 ^ 18)) "0xabc"
      = some 1 := by
    norm_num [check_health_factor]
  rw [hcf]
  norm_num

end AaveHealthFactor
